import Mathlib

set_option linter.unusedVariables false

/-!
Shallow embedding of the session-lifecycle core and the HTTP envelope layer
of the ai-service backend (src/ai-service/src/app).

Sessions are identified by natural numbers: the session factory is modelled
as a counter (`Ctx.next`) handing out fresh identifiers, so "identity" of a
session object is equality of its identifier.  The effect of the underlying
database driver is modelled by a trace of events (commit / rollback / close,
each naming the session it acts on) and by a `SessionBehavior` that says, per
session, whether each driver call raises.  Exceptions are explicit values of
type `Err`; a Python method that can raise is embedded as a function whose
result carries an `Option Err` (the exception it raised, if any).
-/

namespace FullStackTemplate

/-- Per-session behaviour of the underlying database driver: whether
`commit`, `rollback` or `close` raises when called on a given session. -/
structure SessionBehavior where
  commitRaises : Nat → Bool
  rollbackRaises : Nat → Bool
  closeRaises : Nat → Bool

/-- Driver events observable on a session, in the order the code issues them. -/
inductive Ev where
  | commit (s : Nat)
  | rollback (s : Nat)
  | close (s : Nat)
deriving DecidableEq, Repr

/-- Exceptions of the model: failures of the three driver calls, and an
exception raised by the caller-supplied body of a scope (tagged with a code
so distinct body exceptions can be told apart). -/
inductive Err where
  | commitFail
  | rollbackFail
  | closeFail
  | bodyFail (code : Nat)
deriving DecidableEq, Repr

/-- State of a `Context` (context.py, class Context): the mutable stack of
open sessions (list index 0 is the bottom of the stack, the last element is
the top, matching a Python list used with `append` / `pop` / `[-1]`) and the
session factory, modelled as the next fresh session identifier. -/
structure Ctx where
  stack : List Nat
  next : Nat
deriving DecidableEq, Repr

/-- Result of `UnitOfWork.__aenter__`: the updated context, the unit of
work's recorded `_session`, the session returned to the caller, and the
exception raised (the source body has no failure branch, so it is `none`). -/
structure EnterResult where
  ctx : Ctx
  sess : Option Nat
  ret : Nat
  err : Option Err
deriving DecidableEq, Repr

/-- Embedding of `UnitOfWork.__aenter__` (context.py lines 78-82): calls the
session factory (allocates the fresh identifier `c.next`), appends the new
session to the context's stack, records it as `_session` and returns it.
The source performs no check of the previously recorded `_session`
(parameter `sess`) and contains no `raise`. -/
def uowEnter (c : Ctx) (sess : Option Nat) : EnterResult :=
  let s := c.next
  ⟨⟨c.stack ++ [s], c.next + 1⟩, some s, s, none⟩

/-- Result of `UnitOfWork.__aexit__`: the updated context, the unit of
work's `_session` field after the call, the driver events issued, and the
exception the method itself raised (`none` when it returned normally; the
body's own exception, when present, propagates regardless because the
method never returns a truthy value). -/
structure ExitResult where
  ctx : Ctx
  sess : Option Nat
  events : List Ev
  err : Option Err
deriving DecidableEq, Repr

/-- Embedding of `UnitOfWork.__aexit__` (context.py lines 84-106).
`sess` is the recorded `_session` (`none` means the early `return`),
`excPresent` whether the body exited with an exception.  The `try` block
commits when no exception is present and rolls back otherwise; the
`finally` block closes the session, then removes it from the stack (pop
when it is on top by identity, else `list.remove` = erase the first
occurrence, swallowing `ValueError` when absent), then clears `_session`.
When `close` raises, the rest of the `finally` suite does not run: the
stack is left untouched, `_session` stays set, and the close failure is
the exception that propagates. -/
def uowExit (b : SessionBehavior) (c : Ctx) (sess : Option Nat) (excPresent : Bool) :
    ExitResult :=
  match sess with
  | none => ⟨c, none, [], none⟩
  | some s =>
    let tryErr : Option Err :=
      if excPresent then
        (if b.rollbackRaises s then some Err.rollbackFail else none)
      else
        (if b.commitRaises s then some Err.commitFail else none)
    let evs : List Ev :=
      (if excPresent then [Ev.rollback s] else [Ev.commit s]) ++ [Ev.close s]
    if b.closeRaises s then
      ⟨c, some s, evs, some Err.closeFail⟩
    else
      let stack2 : List Nat :=
        if c.stack.getLast? = some s then c.stack.dropLast else c.stack.erase s
      ⟨⟨stack2, c.next⟩, none, evs, tryErr⟩

/-- Behaviour where no driver call raises. -/
def bNone : SessionBehavior :=
  ⟨fun _ => false, fun _ => false, fun _ => false⟩

/-- Behaviour where only `close` raises. -/
def bCloseRaises : SessionBehavior :=
  ⟨fun _ => false, fun _ => false, fun _ => true⟩

/-- C1: for an entered unit of work (recorded session `s`), exit with no
error issues exactly the events commit-then-close on `s`, and exit with an
error issues exactly rollback-then-close on `s` — in particular commit
(resp. rollback) happens exactly once, close exactly once and after it, and
close is issued whatever the behaviour `b`, i.e. even when the commit or
rollback raises. -/
theorem uowExit_events (b : SessionBehavior) (c : Ctx) (s : Nat) (excPresent : Bool) :
    (uowExit b c (some s) excPresent).events =
      if excPresent then [Ev.rollback s, Ev.close s] else [Ev.commit s, Ev.close s] := by
  unfold uowExit
  cases excPresent <;> simp <;> split <;> rfl

/-- C2 counterexample: the claim quantifies over exits "whether or not
commit/rollback/close raised", but when `close` raises the `finally` suite
stops before the stack bookkeeping, so the session is still on the stack
after the exit: with one session 0 on the stack and a close that raises,
the stack still contains 0. -/
theorem uowExit_close_raise_keeps_session :
    0 ∈ (uowExit bCloseRaises ⟨[0], 1⟩ (some 0) false).ctx.stack ∧
      (uowExit bCloseRaises ⟨[0], 1⟩ (some 0) false).sess = some 0 := by
  constructor
  · simp [uowExit, bCloseRaises]
  · rfl

/-- C2 amended: provided `close` does not raise on the unit of work's session
(a raising close skips the removal bookkeeping), exit removes that session
from the context's stack — whatever the body outcome and whether or not
commit or rollback raised.  For a session occurring at most once on the
stack (guaranteed by construction, since every entry pushes a fresh
identifier) the resulting stack is exactly the original with the session's
occurrence erased: the session is gone, every other entry is preserved in
order, and when the session was not on the stack at all the removal is a
silent no-op. -/
theorem uowExit_removes_session (b : SessionBehavior) (st : List Nat) (nx s : Nat)
    (excPresent : Bool) (hclose : b.closeRaises s = false)
    (hcount : st.count s ≤ 1) :
    (uowExit b ⟨st, nx⟩ (some s) excPresent).ctx.stack = st.erase s ∧
      s ∉ (uowExit b ⟨st, nx⟩ (some s) excPresent).ctx.stack ∧
      (s ∉ st → (uowExit b ⟨st, nx⟩ (some s) excPresent).ctx.stack = st) := by
  have hstack : (uowExit b ⟨st, nx⟩ (some s) excPresent).ctx.stack = st.erase s := by
    unfold uowExit
    simp only [hclose, Bool.false_eq_true, if_false]
    by_cases htop : st.getLast? = some s
    · simp only [htop, if_true]
      rcases List.eq_nil_or_concat st with hnil | ⟨l, a, hconcat⟩
      · subst hnil
        simp at htop
      · subst hconcat
        simp only [List.concat_eq_append] at htop hcount ⊢
        have ha : a = s := by simpa using htop
        rw [← ha] at hcount ⊢
        have hs : a ∉ l := by
          intro hmem
          have h1 : 1 ≤ l.count a := List.one_le_count_iff.mpr hmem
          rw [List.count_append] at hcount
          have h2 : List.count a [a] = 1 := by simp
          omega
        rw [List.dropLast_concat, List.erase_append_right _ hs]
        simp
    · simp [htop]
  refine ⟨hstack, ?_, ?_⟩
  · rw [hstack]
    intro hmem
    have h2 : 1 ≤ (st.erase s).count s := List.one_le_count_iff.mpr hmem
    have h3 := List.count_erase_self s st
    omega
  · intro hnot
    rw [hstack, List.erase_of_not_mem hnot]

/-- C2 amended, witness at a concrete input: stack `[7, 3]`, exiting the unit
of work whose session is 3 with a body error and a non-raising driver leaves
the stack `[7]`. -/
theorem uowExit_removes_session_witness :
    bNone.closeRaises 3 = false ∧ ([7, 3] : List Nat).count 3 ≤ 1 ∧
      ((uowExit bNone ⟨[7, 3], 9⟩ (some 3) true).ctx.stack = ([7, 3] : List Nat).erase 3 ∧
        3 ∉ (uowExit bNone ⟨[7, 3], 9⟩ (some 3) true).ctx.stack ∧
        (3 ∉ ([7, 3] : List Nat) → (uowExit bNone ⟨[7, 3], 9⟩ (some 3) true).ctx.stack = [7, 3])) :=
  ⟨rfl, by decide, uowExit_removes_session bNone [7, 3] 9 3 true rfl (by decide)⟩

/-- Fresh context: empty session stack, first session identifier 0. -/
def ctx0 : Ctx := ⟨[], 0⟩

/-- C4 counterexample: entering a `UnitOfWork` twice without an intervening
exit does NOT fail — the second call raises nothing (`err = none`), silently
creates the second session 1, pushes it onto the stack (leaving both
sessions stacked) and overwrites the recorded session from `some 0` to
`some 1`. -/
theorem uowEnter_twice_no_error :
    (uowEnter (uowEnter ctx0 none).ctx (uowEnter ctx0 none).sess).err = none ∧
      (uowEnter ctx0 none).sess = some 0 ∧
      (uowEnter (uowEnter ctx0 none).ctx (uowEnter ctx0 none).sess).sess = some 1 ∧
      (uowEnter (uowEnter ctx0 none).ctx (uowEnter ctx0 none).sess).ctx.stack = [0, 1] := by
  decide

/-- C4 amended: a second `enter()` on an already-entered unit of work
(recorded session `s0`, which is below the factory counter since it was
previously allocated) raises no usage error; instead it allocates and
pushes a second session and overwrites the recorded one with it. -/
theorem uowEnter_twice_overwrites (st : List Nat) (nx s0 : Nat) (hfresh : s0 < nx) :
    (uowEnter ⟨st, nx⟩ (some s0)).err = none ∧
      (uowEnter ⟨st, nx⟩ (some s0)).ctx.stack = st ++ [nx] ∧
      (uowEnter ⟨st, nx⟩ (some s0)).sess = some nx ∧
      (uowEnter ⟨st, nx⟩ (some s0)).sess ≠ some s0 := by
  refine ⟨rfl, rfl, rfl, ?_⟩
  intro h
  have : nx = s0 := by simpa [uowEnter] using h
  omega

/-- C4 amended, witness at a concrete input: a unit of work that recorded
session 0 is entered again with the factory counter at 1. -/
theorem uowEnter_twice_overwrites_witness :
    (0 : Nat) < 1 ∧
      ((uowEnter ⟨[0], 1⟩ (some 0)).err = none ∧
        (uowEnter ⟨[0], 1⟩ (some 0)).ctx.stack = [0] ++ [1] ∧
        (uowEnter ⟨[0], 1⟩ (some 0)).sess = some 1 ∧
        (uowEnter ⟨[0], 1⟩ (some 0)).sess ≠ some 0) :=
  ⟨by decide, uowEnter_twice_overwrites [0] 1 0 (by decide)⟩

/-- Embedding of the property `Context.db_session` (context.py lines 31-35):
raises `RuntimeError` when the session stack is empty (`if not
self._session_stack`), otherwise returns the stack's last element
(`self._session_stack[-1]`).  The accessor does not modify the stack: it is
a pure function of it. -/
def dbSession (stack : List Nat) : Except String Nat :=
  if h : stack = [] then
    Except.error "No active database session. Call Context.unit_of_work()."
  else
    Except.ok (stack.getLast h)

/-- C5: `db_session` fails with the usage error exactly when the session
stack is empty, and otherwise returns the top of the stack — the most
recently pushed, not yet removed session (the last element, since pushes
append at the end) — leaving the stack unchanged (the accessor is a pure
function of the stack). -/
theorem dbSession_spec (stack : List Nat) :
    ((∃ msg, dbSession stack = Except.error msg) ↔ stack = []) ∧
      (∀ s, dbSession stack = Except.ok s ↔ stack.getLast? = some s) := by
  constructor
  · constructor
    · rintro ⟨msg, hmsg⟩
      by_contra hne
      simp [dbSession, hne] at hmsg
    · intro hnil
      exact ⟨"No active database session. Call Context.unit_of_work().",
        by simp [dbSession, hnil]⟩
  · intro s
    constructor
    · intro h
      by_cases hnil : stack = []
      · simp [dbSession, hnil] at h
      · simp [dbSession, hnil] at h
        rw [List.getLast?_eq_getLast _ hnil]
        exact congrArg some h
    · intro h
      have hnil : stack ≠ [] := by
        intro hn
        subst hn
        simp at h
      have : stack.getLast hnil = s := by
        have := List.getLast?_eq_getLast stack hnil
        rw [this] at h
        exact Option.some.inj h
      simp [dbSession, hnil, this]

/-- C5 witness at concrete inputs: on the stack `[4, 5]` the accessor
returns the top session 5; on the empty stack it fails. -/
theorem dbSession_spec_witness :
    dbSession [4, 5] = Except.ok 5 ∧ (∃ msg, dbSession [] = Except.error msg) :=
  ⟨((dbSession_spec [4, 5]).2 5).mpr (by decide), (dbSession_spec []).1.mpr rfl⟩

/-- Result of running a scoped session acquisition (`Context.session` or
`Context.autocommit_scope`): the session that was created, the stack as the
caller's body saw it (after the push), the context after the scope exited,
the driver events issued inside and after the body, and the exception that
escaped the scope (`none` for a normal return). -/
structure ScopeResult where
  sessionId : Nat
  stackInBody : List Nat
  ctx : Ctx
  events : List Ev
  err : Option Err
deriving Repr

/-- Embedding of `Context.session` (context.py lines 59-67): create a
session via the factory, append it to the stack, run the code inside the
`with` block (`inner`, a function of the yielded session returning the
driver events it issued and the exception it raised, if any; the inner code
of this model does not itself touch the stack), then in the `finally`
block pop the stack and close the session.  An exception from `close`
replaces the pending inner exception; otherwise the inner exception (or
normal return) is the scope's outcome. -/
def sessionScope (b : SessionBehavior) (c : Ctx)
    (inner : Nat → List Ev × Option Err) : ScopeResult :=
  let s := c.next
  let stackDuring := c.stack ++ [s]
  let r := inner s
  let closeErr : Option Err := if b.closeRaises s then some Err.closeFail else none
  ⟨s, stackDuring, ⟨stackDuring.dropLast, c.next + 1⟩, r.1 ++ [Ev.close s],
    match closeErr with
    | some e => some e
    | none => r.2⟩

/-- Embedding of `Context.autocommit_scope` (context.py lines 49-57):
acquire a session via `Context.session`; inside it, run the caller's body
(`body`, returning its events and its exception, if any), commit on a clean
body, and on any exception — from the body, or from the commit itself,
since the `await session.commit()` sits inside the `try` — roll back and
re-raise (the rollback's own failure, when it raises, propagates instead). -/
def autocommitScope (b : SessionBehavior) (c : Ctx)
    (body : Nat → List Ev × Option Err) : ScopeResult :=
  sessionScope b c (fun s =>
    let r := body s
    match r.2 with
    | none =>
      if b.commitRaises s then
        if b.rollbackRaises s then
          (r.1 ++ [Ev.commit s, Ev.rollback s], some Err.rollbackFail)
        else
          (r.1 ++ [Ev.commit s, Ev.rollback s], some Err.commitFail)
      else
        (r.1 ++ [Ev.commit s], none)
    | some e =>
      if b.rollbackRaises s then
        (r.1 ++ [Ev.rollback s], some Err.rollbackFail)
      else
        (r.1 ++ [Ev.rollback s], some e))

/-- Body of a scope that issues no driver events of its own and either
returns cleanly (`none`) or raises the given exception. -/
def inertBody (bodyErr : Option Err) : Nat → List Ev × Option Err :=
  fun _ => ([], bodyErr)

/-- C3: running `autocommit_scope` on a context (with a driver that does not
raise on the new session) creates the fresh session `c.next` and pushes it
onto the session stack for the body; on every exit path the session is
popped (the final stack is the original) and closed exactly once; a clean
body commits exactly once and then closes, with no rollback and no
exception escaping; a body exception rolls back exactly once (no commit),
closes, and re-raises the original exception.  The inner `session()` scope
by itself performs no commit and no rollback: with the same inert body it
issues only the close event. -/
theorem autocommitScope_spec (b : SessionBehavior) (c : Ctx) (bodyErr : Option Err)
    (hcommit : b.commitRaises c.next = false)
    (hrollback : b.rollbackRaises c.next = false)
    (hclose : b.closeRaises c.next = false) :
    (autocommitScope b c (inertBody bodyErr)).sessionId = c.next ∧
      (autocommitScope b c (inertBody bodyErr)).stackInBody = c.stack ++ [c.next] ∧
      (autocommitScope b c (inertBody bodyErr)).ctx.stack = c.stack ∧
      (bodyErr = none →
        (autocommitScope b c (inertBody bodyErr)).events =
            [Ev.commit c.next, Ev.close c.next] ∧
          (autocommitScope b c (inertBody bodyErr)).err = none) ∧
      (∀ e, bodyErr = some e →
        (autocommitScope b c (inertBody bodyErr)).events =
            [Ev.rollback c.next, Ev.close c.next] ∧
          (autocommitScope b c (inertBody bodyErr)).err = some e) ∧
      (sessionScope b c (inertBody bodyErr)).events = [Ev.close c.next] := by
  refine ⟨rfl, rfl, by simp [autocommitScope, sessionScope], ?_, ?_, ?_⟩
  · rintro rfl
    constructor
    · simp [autocommitScope, sessionScope, inertBody, hcommit]
    · simp [autocommitScope, sessionScope, inertBody, hcommit, hclose]
  · rintro e rfl
    constructor
    · simp [autocommitScope, sessionScope, inertBody, hrollback]
    · simp [autocommitScope, sessionScope, inertBody, hrollback, hclose]
  · simp [sessionScope, inertBody]

/-- C3 witness at a concrete input: a fresh context and a driver that never
raises, for a clean body and for a body raising exception code 5. -/
theorem autocommitScope_spec_witness :
    bNone.commitRaises 0 = false ∧ bNone.rollbackRaises 0 = false ∧
      bNone.closeRaises 0 = false ∧
      ((autocommitScope bNone ctx0 (inertBody none)).sessionId = 0 ∧
        (autocommitScope bNone ctx0 (inertBody none)).stackInBody = [] ++ [0] ∧
        (autocommitScope bNone ctx0 (inertBody none)).ctx.stack = [] ∧
        (none = (none : Option Err) →
          (autocommitScope bNone ctx0 (inertBody none)).events =
              [Ev.commit 0, Ev.close 0] ∧
            (autocommitScope bNone ctx0 (inertBody none)).err = none) ∧
        (∀ e, (none : Option Err) = some e →
          (autocommitScope bNone ctx0 (inertBody none)).events =
              [Ev.rollback 0, Ev.close 0] ∧
            (autocommitScope bNone ctx0 (inertBody none)).err = some e) ∧
        (sessionScope bNone ctx0 (inertBody none)).events = [Ev.close 0]) :=
  ⟨rfl, rfl, rfl, autocommitScope_spec bNone ctx0 none rfl rfl rfl⟩

/-- Python strings are modelled as their sequence of characters, so that
`str.lower` is a character-wise map and the kernel can evaluate it. -/
abbrev PyStr : Type := List Char

/-- Embedding of Python `str.lower()` as a character-wise lower-casing. -/
def strLower (s : PyStr) : PyStr := s.map Char.toLower

/-- Embedding of `create_email` (operations.py lines 7-8): the f-string
interpolating the lower-cased name, a dot, the lower-cased surname and the
literal suffix `@example.com`. -/
def create_email (user_name user_surname : PyStr) : PyStr :=
  strLower user_name ++ ['.'] ++ strLower user_surname ++ "@example.com".toList

/-- C6: `create_email` returns the lower-cased name, a dot, the lower-cased
surname and the suffix `@example.com`; and the result depends only on the
lower-casings of the two inputs, so any two inputs differing only in casing
(i.e. with equal lower-casings) produce the same email. -/
theorem create_email_spec (n n' s s' : PyStr)
    (hn : strLower n = strLower n') (hs : strLower s = strLower s') :
    create_email n s = strLower n ++ ['.'] ++ strLower s ++ "@example.com".toList ∧
      create_email n s = create_email n' s' := by
  refine ⟨rfl, ?_⟩
  unfold create_email
  rw [hn, hs]

/-- C6 witness at a concrete input: `"Alice"`/`"ALICE"` and
`"Smith"`/`"smith"` have equal lower-casings and produce the same email,
`alice.smith@example.com`. -/
theorem create_email_spec_witness :
    strLower "Alice".toList = strLower "ALICE".toList ∧
      strLower "Smith".toList = strLower "smith".toList ∧
      (create_email "Alice".toList "Smith".toList =
          strLower "Alice".toList ++ ['.'] ++ strLower "Smith".toList ++
            "@example.com".toList ∧
        create_email "Alice".toList "Smith".toList =
          create_email "ALICE".toList "smith".toList) :=
  ⟨by decide, by decide,
    create_email_spec "Alice".toList "ALICE".toList "Smith".toList "smith".toList
      (by decide) (by decide)⟩

/-- Embedding of the `EmailStr` value object (primitives.py lines 6-17): the
`__post_init__` check raises a `DomainValidationError` with message
`Invalid email address` when the wrapped string does not contain the
character `@`, and otherwise the dataclass stores the string as given.
Construction is embedded as a fallible function returning the stored
value. -/
def emailStrMake (value : PyStr) : Except String PyStr :=
  if '@' ∈ value then Except.ok value else Except.error "Invalid email address"

/-- C7: `EmailStr` construction fails with the domain validation error
exactly when the string has no `@` character, and when it succeeds the
stored value is the input unchanged. -/
theorem emailStrMake_spec (value : PyStr) :
    ((∃ msg, emailStrMake value = Except.error msg) ↔ ¬ ('@' ∈ value)) ∧
      ('@' ∈ value → emailStrMake value = Except.ok value) := by
  constructor
  · constructor
    · rintro ⟨msg, hmsg⟩ hmem
      simp [emailStrMake, hmem] at hmsg
    · intro hnot
      exact ⟨"Invalid email address", by simp [emailStrMake, hnot]⟩
  · intro hmem
    simp [emailStrMake, hmem]

/-- C7 witness at concrete inputs: `a@b` contains `@` and is stored
unchanged; the membership fact is discharged at `a@b` by computation. -/
theorem emailStrMake_spec_witness :
    ('@' ∈ ("a@b".toList : PyStr)) ∧
      emailStrMake "a@b".toList = Except.ok "a@b".toList :=
  have h : ('@' ∈ ("a@b".toList : PyStr)) := by decide
  ⟨h, (emailStrMake_spec "a@b".toList).2 h⟩

/-- Error codes of the API (errors.py, enum ErrorCode). -/
inductive ErrorCode where
  | VALIDATION_ERROR
  | HTTP_ERROR
  | INTERNAL_ERROR
  | RESOURCE_NOT_FOUND
  | CONFLICT
  | WEAVIATE_ERROR
deriving DecidableEq, Repr

/-- Field-level error entry of the envelope (base_response.py, FieldError). -/
structure FieldError where
  field : Option String
  reason : String
deriving DecidableEq, Repr

/-- Error descriptor of the envelope (base_response.py, ErrorInfo).  The
source's `detail` admits a string, a dict or a list; the routes under
consideration only ever pass a string, so it is modelled as an optional
string. -/
structure ErrorInfo where
  code : ErrorCode
  message : String
  detail : Option String
  errors : List FieldError
deriving DecidableEq, Repr

/-- Pagination block of the envelope metadata (base_response.py,
PaginationMeta). -/
structure PaginationMeta where
  page : Int
  size : Int
  total : Int
deriving DecidableEq, Repr

/-- Cursor block of the envelope metadata (base_response.py, CursorMeta). -/
structure CursorMeta where
  next_cursor : Option String
  previous_cursor : Option String
deriving DecidableEq, Repr

/-- Metadata block of the envelope (base_response.py, Meta). -/
structure Meta where
  pagination : Option PaginationMeta
  cursor : Option CursorMeta
deriving DecidableEq, Repr

/-- Response envelope (base_response.py, AppResponse): success flag,
optional payload, optional message, optional metadata, optional error
descriptor, optional trace identifier.  Fields the constructors leave out
of their payload dict take the pydantic default `None`. -/
structure AppResponse (T : Type) where
  success : Bool
  data : Option T
  message : Option String
  meta : Option Meta
  error : Option ErrorInfo
  trace_id : Option String
deriving DecidableEq, Repr

/-- Embedding of the classmethod `AppResponse.ok` (base_response.py lines
48-66): success `True`, the given data, the optional message, metadata and
trace identifier, and no error descriptor. -/
def AppResponse.mkOk {T : Type} (data : T) (message : Option String)
    (meta : Option Meta) (trace_id : Option String) : AppResponse T :=
  ⟨true, some data, message, meta, none, trace_id⟩

/-- Embedding of the classmethod `AppResponse.fail` (base_response.py lines
68-91): success `False`, no data, no message, no metadata, an error
descriptor built from the given code, message, detail and field-error list
(`errors or []`: the list defaults to empty when the argument is absent),
and the optional trace identifier. -/
def AppResponse.mkFail {T : Type} (code : ErrorCode) (message : String)
    (detail : Option String) (errors : Option (List FieldError))
    (trace_id : Option String) : AppResponse T :=
  ⟨false, none, none, none, some ⟨code, message, detail, errors.getD []⟩, trace_id⟩

/-- Outcome of a call to the underlying Weaviate client: a returned value,
or an exception carrying a message. -/
inductive ClientOutcome (α : Type) where
  | ok (a : α)
  | exc (msg : String)

/-- Result dict of `embed_text_in_weaviate` (the success case). -/
structure EmbedResult where
  text : String
  collection : String
  uuid : String
deriving DecidableEq, Repr

/-- Object returned by the Weaviate BM25 query: its uuid, its stored
properties (a dict, modelled as an association list) and its metadata
distance (a float in the source, modelled opaquely as an optional
integer — no claim depends on its value). -/
structure WeavObject where
  uuid : String
  properties : List (String × String)
  distance : Option Int
deriving DecidableEq, Repr

/-- Entry of the search result list built by `search_in_weaviate`: the
object's uuid, its `text` property (defaulting to the empty string,
`obj.properties.get("text", "")`), its distance and its raw properties. -/
structure SearchHit where
  uuid : String
  text : String
  distance : Option Int
  properties : List (String × String)
deriving DecidableEq, Repr

/-- Result dict of `search_in_weaviate` (the success case). -/
structure SearchResult where
  query : String
  collection : String
  results : List SearchHit
  count : Nat
deriving DecidableEq, Repr

/-- Embedding of `embed_text_in_weaviate` (weaviate_db_ops.py lines 7-29):
inserts an object with the text property and returns the dict of text,
collection and uuid; any exception `e` of the client (`insertOutcome`) is
caught and re-raised as `ValueError("Failed to embed text: " + str(e))`. -/
def embed_text_in_weaviate (insertOutcome : ClientOutcome String)
    (text collection : String) : Except String EmbedResult :=
  match insertOutcome with
  | ClientOutcome.ok uuid => Except.ok ⟨text, collection, uuid⟩
  | ClientOutcome.exc m => Except.error ("Failed to embed text: " ++ m)

/-- Embedding of `search_in_weaviate` (weaviate_db_ops.py lines 32-68): runs
the BM25 query (`queryOutcome` is the client's response or exception),
builds the hit list from `response.objects` (the `if response.objects:`
truthiness guard is the `isEmpty` test) and returns the dict with
`count = len(results)`; any client exception `e` is caught and re-raised
as `ValueError("Failed to search: " + str(e))`.  The `limit` is forwarded
to the client and does not appear in the result. -/
def search_in_weaviate (queryOutcome : ClientOutcome (List WeavObject))
    (query collection : String) (limit : Nat) : Except String SearchResult :=
  match queryOutcome with
  | ClientOutcome.ok objs =>
    let results : List SearchHit :=
      if objs.isEmpty then []
      else objs.map (fun o =>
        ⟨o.uuid, (o.properties.lookup "text").getD "", o.distance, o.properties⟩)
    Except.ok ⟨query, collection, results, results.length⟩
  | ClientOutcome.exc m => Except.error ("Failed to search: " ++ m)

/-- Embedding of the route handler `embed_text` (weaviate_routes.py lines
19-67): calls the service (a pass-through to `embed_text_in_weaviate`),
wraps a success in `AppResponse.ok` with the message
`Text embedded successfully`, and catches the `ValueError` from the data
access, turning it into `AppResponse.fail` with code `WEAVIATE_ERROR`,
message `Failed to embed text` and the exception text as detail.  The
outer `Except` is the handler's own exception channel: a value `Except.ok`
means the handler returned an envelope rather than raising. -/
def embed_text_route (insertOutcome : ClientOutcome String)
    (text collection : String) (trace_id : Option String) :
    Except String (AppResponse EmbedResult) :=
  match embed_text_in_weaviate insertOutcome text collection with
  | Except.ok r =>
    Except.ok (AppResponse.mkOk r (some "Text embedded successfully") none trace_id)
  | Except.error e =>
    Except.ok (AppResponse.mkFail ErrorCode.WEAVIATE_ERROR "Failed to embed text"
      (some e) none trace_id)

/-- Embedding of the route handler `search_weaviate` (weaviate_routes.py
lines 70-116): calls the service (a pass-through to `search_in_weaviate`),
wraps a success in `AppResponse.ok` with the message `Search completed`,
and catches the `ValueError` from the data access, turning it into
`AppResponse.fail` with code `WEAVIATE_ERROR`, message `Failed to search`
and the exception text as detail. -/
def search_route (queryOutcome : ClientOutcome (List WeavObject))
    (query collection : String) (limit : Nat) (trace_id : Option String) :
    Except String (AppResponse SearchResult) :=
  match search_in_weaviate queryOutcome query collection limit with
  | Except.ok r =>
    Except.ok (AppResponse.mkOk r (some "Search completed") none trace_id)
  | Except.error e =>
    Except.ok (AppResponse.mkFail ErrorCode.WEAVIATE_ERROR "Failed to search"
      (some e) none trace_id)

/-- C8: every client exception (message `m`) during embed or search is
re-raised by the data-access function as the single normalized error
carrying the original message; the route handler catches that normalized
error and returns (rather than raises — the handler's result is `Except.ok`)
a `success:false` envelope with code `WEAVIATE_ERROR` whose detail is the
normalized message, so these two endpoints never surface an HTTP error for
that failure class. -/
theorem weaviate_error_normalization (m text collection query : String) (limit : Nat)
    (trace_id : Option String) :
    embed_text_in_weaviate (ClientOutcome.exc m) text collection =
        Except.error ("Failed to embed text: " ++ m) ∧
      search_in_weaviate (ClientOutcome.exc m) query collection limit =
        Except.error ("Failed to search: " ++ m) ∧
      embed_text_route (ClientOutcome.exc m) text collection trace_id =
        Except.ok (AppResponse.mkFail ErrorCode.WEAVIATE_ERROR "Failed to embed text"
          (some ("Failed to embed text: " ++ m)) none trace_id) ∧
      (∀ r, embed_text_route (ClientOutcome.exc m) text collection trace_id =
          Except.ok r →
        r.success = false ∧
          r.error = some ⟨ErrorCode.WEAVIATE_ERROR, "Failed to embed text",
            some ("Failed to embed text: " ++ m), []⟩) ∧
      search_route (ClientOutcome.exc m) query collection limit trace_id =
        Except.ok (AppResponse.mkFail ErrorCode.WEAVIATE_ERROR "Failed to search"
          (some ("Failed to search: " ++ m)) none trace_id) ∧
      (∀ r, search_route (ClientOutcome.exc m) query collection limit trace_id =
          Except.ok r →
        r.success = false ∧
          r.error = some ⟨ErrorCode.WEAVIATE_ERROR, "Failed to search",
            some ("Failed to search: " ++ m), []⟩) := by
  refine ⟨rfl, rfl, rfl, ?_, rfl, ?_⟩
  · intro r hr
    have hr2 := Except.ok.inj hr
    rw [← hr2]
    exact ⟨rfl, rfl⟩
  · intro r hr
    have hr2 := Except.ok.inj hr
    rw [← hr2]
    exact ⟨rfl, rfl⟩

/-- C9: a search whose client call returns objects yields a result whose
count equals the length of its results list; in particular when the client
returns no objects the result is `results = []`, `count = 0`, and the route
wraps it in a `success:true` envelope. -/
theorem search_count_matches_results (objs : List WeavObject)
    (query collection : String) (limit : Nat) (trace_id : Option String) :
    (∀ r, search_in_weaviate (ClientOutcome.ok objs) query collection limit =
        Except.ok r → r.count = r.results.length) ∧
      search_in_weaviate (ClientOutcome.ok []) query collection limit =
        Except.ok ⟨query, collection, [], 0⟩ ∧
      search_route (ClientOutcome.ok []) query collection limit trace_id =
        Except.ok (AppResponse.mkOk ⟨query, collection, [], 0⟩
          (some "Search completed") none trace_id) ∧
      (∀ r, search_route (ClientOutcome.ok []) query collection limit trace_id =
          Except.ok r →
        r.success = true ∧ r.data = some ⟨query, collection, [], 0⟩) := by
  refine ⟨?_, rfl, rfl, ?_⟩
  · intro r hr
    have hr2 := Except.ok.inj hr
    rw [← hr2]
  · intro r hr
    have hr2 := Except.ok.inj hr
    rw [← hr2]
    exact ⟨rfl, rfl⟩

/-- C10: `AppResponse.ok` yields success `true`, the given data and no error
descriptor; `AppResponse.fail` yields success `false`, no data, and an
error descriptor carrying the given code and message with the field-error
list defaulting to empty when absent — so for both constructors, success is
`true` exactly when the error descriptor is absent. -/
theorem appResponse_constructors {T : Type} (data : T) (message : Option String)
    (meta : Option Meta) (code : ErrorCode) (failMessage : String)
    (detail : Option String) (errors : Option (List FieldError))
    (tr tr' : Option String) :
    (AppResponse.mkOk data message meta tr).success = true ∧
      (AppResponse.mkOk data message meta tr).data = some data ∧
      (AppResponse.mkOk data message meta tr).error = none ∧
      (AppResponse.mkFail code failMessage detail errors tr' : AppResponse T).success
          = false ∧
      (AppResponse.mkFail code failMessage detail errors tr' : AppResponse T).data
          = none ∧
      (AppResponse.mkFail code failMessage detail errors tr' : AppResponse T).error
          = some ⟨code, failMessage, detail, errors.getD []⟩ ∧
      (AppResponse.mkFail code failMessage detail none tr' : AppResponse T).error
          = some ⟨code, failMessage, detail, []⟩ ∧
      ((AppResponse.mkOk data message meta tr).success = true ↔
        (AppResponse.mkOk data message meta tr).error = none) ∧
      ((AppResponse.mkFail code failMessage detail errors tr' : AppResponse T).success
          = true ↔
        (AppResponse.mkFail code failMessage detail errors tr' : AppResponse T).error
          = none) :=
  ⟨rfl, rfl, rfl, rfl, rfl, rfl, rfl,
    ⟨fun _ => rfl, fun _ => rfl⟩,
    ⟨fun h => by simp [AppResponse.mkFail] at h,
      fun h => by simp [AppResponse.mkFail] at h⟩⟩

end FullStackTemplate
